import Mathlib

/-!
Verification of the WasteVision console menu / validated-input subsystem.

This file gives a shallow embedding, in Lean 4, of the core components of the
repository (scripts/utils/console/action.py, option.py, menu.py and
scripts/utils/ui/input.py) and proves or refutes the frozen claims about them.

Conventions of the embedding:
* Python values that flow through the subsystem are modelled by `PyVal`
  (Python's `None` is `PyVal.vNone`).
* Python exceptions are modelled by `Exc`; raising is modelled with
  `Except Exc _` results.  `Exc.executionError` has no counterpart in the
  code: it exists only so that the specification's notion of a wrapping
  "ExecutionError" can be stated and compared against what the code does.
* Console I/O is modelled explicitly: stdin is a `List String` of lines
  (each `input()` call pops one line), stderr/stdout diagnostics that matter
  to a claim are returned as `List String`.
* The filesystem queried by `pathlib.Path.is_file` / `is_dir` / `exists` is
  modelled by a finite structure `FS`.
-/

namespace WasteVision

/-- Model of the Python values handled by the subsystem.  `vPath p` models a
`pathlib.Path` built from the string `p`; `vList` models a Python list. -/
inductive PyVal where
  | vNone : PyVal
  | vStr : String → PyVal
  | vInt : Int → PyVal
  | vBool : Bool → PyVal
  | vPath : String → PyVal
  | vList : List PyVal → PyVal

mutual

/-- Python `==` on modelled values. -/
def PyVal.beq : PyVal → PyVal → Bool
  | .vNone, .vNone => true
  | .vStr a, .vStr b => a = b
  | .vInt a, .vInt b => a = b
  | .vBool a, .vBool b => a = b
  | .vPath a, .vPath b => a = b
  | .vList a, .vList b => PyVal.beqList a b
  | _, _ => false

/-- Python `==` on lists of modelled values. -/
def PyVal.beqList : List PyVal → List PyVal → Bool
  | [], [] => true
  | a :: as, b :: bs => PyVal.beq a b && PyVal.beqList as bs
  | _, _ => false

end

/-- Python `v in l` membership (by `==`). -/
def pyMem (v : PyVal) (l : List PyVal) : Bool :=
  l.any (PyVal.beq v)

/-- Model of the Python exceptions that the subsystem raises or propagates.
Each constructor carries the exception's message (`str(e)`).
`executionError` is NOT raised anywhere in the code: it models the
specification's "ExecutionError carrying the target identity and the original
failure", so that the claim about wrapping can be stated. -/
inductive Exc where
  | importError : String → Exc
  | attributeError : String → Exc
  | valueError : String → Exc
  | typeError : String → Exc
  | runtimeError : String → Exc
  | executionError : String → Exc → Exc
deriving DecidableEq

/-- Message extraction, `str(e)` for a modelled exception. -/
def Exc.msg : Exc → String
  | .importError m => m
  | .attributeError m => m
  | .valueError m => m
  | .typeError m => m
  | .runtimeError m => m
  | .executionError ident _ => ident

/-- Does a result consist of a raised spec-style `ExecutionError`? -/
def raisedExecutionError : Except Exc PyVal → Bool
  | .error (.executionError _ _) => true
  | _ => false

/-! ## Python primitive string operations

Explicit structural implementations (rather than Lean's `String` library
functions) so that every definition reduces inside the kernel.  They model
Python's `.strip()`, `.lower()`, `.split(',')` and `.startswith('_')` on the
ASCII text this subsystem handles.

`pythonInt` models `int(s)` on the strings this subsystem feeds it
(already `.strip()`ped): an optional sign followed by decimal digits.
(Digit-grouping underscores accepted by CPython are not modelled; no claim
involves them.) -/

/-- ASCII whitespace, the characters `.strip()` removes in this model. -/
def isSpaceChar (c : Char) : Bool :=
  c = ' ' ∨ c = '\t' ∨ c = '\n' ∨ c = '\r'

/-- Python `s.strip()`. -/
def pyStrip (s : String) : String :=
  String.mk (((s.toList.dropWhile isSpaceChar).reverse.dropWhile isSpaceChar).reverse)

/-- Lower-case one ASCII character. -/
def lowerChar (c : Char) : Char :=
  if 'A' ≤ c ∧ c ≤ 'Z' then Char.ofNat (c.toNat + 32) else c

/-- Python `s.lower()` (ASCII). -/
def pyLower (s : String) : String :=
  String.mk (s.toList.map lowerChar)

/-- Helper for `pySplitComma`: `cur` is the reversed current chunk. -/
def splitCommaAux : List Char → List Char → List String
  | [], cur => [String.mk cur.reverse]
  | c :: cs, cur =>
    if c = ',' then String.mk cur.reverse :: splitCommaAux cs []
    else splitCommaAux cs (c :: cur)

/-- Python `s.split(',')`. -/
def pySplitComma (s : String) : List String :=
  splitCommaAux s.toList []

/-- Python `s.startswith('_')`. -/
def startsUnderscore (s : String) : Bool :=
  match s.toList with
  | c :: _ => c = '_'
  | [] => false

/-- Decimal value of a nonempty list of digit characters; `none` if the list
is empty or contains a non-digit. -/
def digitsVal : List Char → Option Nat
  | [] => none
  | cs =>
    cs.foldl
      (fun acc c =>
        match acc with
        | none => none
        | some n => if c.isDigit then some (n * 10 + (c.toNat - 48)) else none)
      (some 0)

/-- Model of Python `int(s)` (ValueError becomes `none`). -/
def pythonInt (s : String) : Option Int :=
  match (pyStrip s).toList with
  | '-' :: rest => (digitsVal rest).map (fun n => -(n : Int))
  | '+' :: rest => (digitsVal rest).map (fun n => (n : Int))
  | cs => (digitsVal cs).map (fun n => (n : Int))

/-! ## action.py -/

/-- A member of a Python module's namespace: either a callable whose
invocation (with the action's stored arguments) produces `outcome`, or a
plain non-callable attribute. -/
inductive Member where
  | callable : Except Exc PyVal → Member
  | plain : PyVal → Member

/-- Is a module member callable? -/
def Member.isCallable : Member → Bool
  | .callable _ => true
  | .plain _ => false

/-- A Python module: its attribute table (`__dict__` restricted to the names
`dir()` reports; the implicit dunder attributes all start with `_` and are
filtered out by the code, so they are omitted). -/
structure PyModule where
  attrs : List (String × Member)

/-- Association-list lookup by string key (used for the import system and for
module attribute tables). -/
def lookupStr {α : Type} (name : String) : List (String × α) → Option α
  | [] => none
  | (a, v) :: rest => if a = name then some v else lookupStr name rest

/-- The import system: maps dotted module paths to modules (a missing path
models an `ImportError` from `importlib.import_module`). -/
def Env := List (String × PyModule)

/-- Module lookup in the environment. -/
def Env.find (env : Env) (path : String) : Option PyModule :=
  lookupStr path env

/-- Attribute lookup on a module (`hasattr`/`getattr`). -/
def PyModule.getattr (m : PyModule) (name : String) : Option Member :=
  lookupStr name m.attrs

/-- Lexicographic `≤` on character lists (by code point), used to model
Python's alphabetical `dir()` order. -/
def charListLe : List Char → List Char → Bool
  | [], _ => true
  | _ :: _, [] => false
  | a :: as, b :: bs =>
    if a < b then true
    else if b < a then false
    else charListLe as bs

/-- Lexicographic `≤` on strings. -/
def strLe (a b : String) : Bool :=
  charListLe a.toList b.toList

/-- Insert a string into an already-sorted list (ordering used to model
Python's `dir()`, which reports attribute names alphabetically). -/
def insertSorted (s : String) : List String → List String
  | [] => [s]
  | t :: ts => if strLe s t then s :: t :: ts else t :: insertSorted s ts

/-- Alphabetical sort, modelling the order of `dir(module)`. -/
def sortNames (l : List String) : List String :=
  l.foldr insertSorted []

/-- Model of `[attr for attr in dir(module) if not attr.startswith('_')]`:
every public attribute name of the module, in `dir()` order.  Note the code
does not filter by callability. -/
def dirPublic (m : PyModule) : List String :=
  (sortNames (m.attrs.map Prod.fst)).filter (fun a => !(startsUnderscore a))

/-- The deferred-lookup `Action` of action.py: a dotted module path plus the
entry-point name (arguments are folded into the `Member.callable` outcome of
the target, since they are fixed at construction). -/
structure Action where
  script_path : String
  entry_function : String

/-- The `AttributeError` message built at action.py line 71-74. -/
def Action.missingMsg (a : Action) (m : PyModule) : String :=
  "Module '" ++ a.script_path ++ "' has no '" ++ a.entry_function ++
    "' function. Available functions: " ++ String.intercalate ", " (dirPublic m)

/-- The stderr line of the generic `except Exception` handler
(action.py line 87). -/
def Action.execDiag (a : Action) (e : Exc) : String :=
  "Error executing " ++ a.script_path ++ "." ++ a.entry_function ++ "(): " ++ e.msg

/-- The stderr diagnostic written before re-raising, dispatched on the
exception's TYPE exactly as the `except` handlers of action.py lines 80-88
do (regardless of where inside the `try` block the exception arose):
an `ImportError` gets the importing line (which omits the entry point), an
`AttributeError` gets `str(e)` alone (no target/entry identity), and every
other exception gets the generic executing line. -/
def Action.errDiag (a : Action) (e : Exc) : String :=
  match e with
  | .importError _ => "Error importing '" ++ a.script_path ++ "': " ++ e.msg
  | .attributeError m => m
  | _ => a.execDiag e

/-- Model of `Action.execute` (action.py lines 48-88): import the module, check the
entry point exists, call it; on any failure, print the type-dispatched
diagnostic `errDiag` to stderr and re-raise the exception unchanged.
Returns the stderr lines written together with the returned-or-raised
outcome. -/
def Action.execute (env : Env) (a : Action) : List String × Except Exc PyVal :=
  match env.find a.script_path with
  | none =>
    let e := Exc.importError ("No module named '" ++ a.script_path ++ "'")
    ([a.errDiag e], .error e)
  | some m =>
    match m.getattr a.entry_function with
    | none =>
      let e := Exc.attributeError (a.missingMsg m)
      ([a.errDiag e], .error e)
    | some (.callable (.ok v)) => ([], .ok v)
    | some (.callable (.error e)) => ([a.errDiag e], .error e)
    | some (.plain _) =>
      -- calling a non-callable raises TypeError, caught by the generic
      -- `except Exception` handler which prints and re-raises
      let e := Exc.typeError ("'" ++ a.entry_function ++ "' object is not callable")
      ([a.errDiag e], .error e)

/-- Model of `FunctionAction.execute` (action.py lines 126-140): run the directly
bound callable (modelled by its invocation outcome); on failure print a
diagnostic naming the function and re-raise. -/
def FunctionAction.execute (funcName : String) (outcome : Except Exc PyVal) :
    List String × Except Exc PyVal :=
  match outcome with
  | .ok v => ([], .ok v)
  | .error e => (["Error executing function " ++ funcName ++ ": " ++ e.msg], .error e)

/-! ## option.py -/

/-- The `Option` dataclass of option.py (named `OptionItem` here to avoid
clashing with Lean's `Option`).  The wrapped `Action`'s `execute()` behaviour
is modelled by the field `action`, a thunk producing its outcome. -/
structure OptionItem where
  name : String
  description : String
  action : Unit → Except Exc PyVal
  enabled : Bool
  visible : Bool

/-- Model of `Option.execute` (option.py lines 51-68): raise `RuntimeError` if the
option is disabled, otherwise delegate to the action. -/
def OptionItem.execute (o : OptionItem) : Except Exc PyVal :=
  if o.enabled = false then
    .error (.runtimeError ("Cannot execute disabled option: " ++ o.name))
  else
    o.action ()

/-- Model of `Option.__str__` (option.py lines 88-99). -/
def OptionItem.render (o : OptionItem) : String :=
  o.name ++ ": " ++ o.description ++ (if o.enabled then "" else " (disabled)")

/-! ## menu.py

The navigation data model.  Because an option's action may return a nested
`Menu`, the menu, its options and the possible outcomes of
`Option.execute()` form a mutual inductive family.  An option's wrapped
action is represented by the outcome `MRes` that `Option.execute()` would
produce for it (the menu loop pre-checks `enabled` itself at line 164, so
the disabled-option `RuntimeError` of option.py is unreachable from
`display`): `rnone` = returns `None`, `rval v` = returns the non-`None`
non-`Menu` value `v`, `rmenu m` = returns the nested menu `m`,
`rerr msg` = raises an exception with message `msg`. -/

mutual

inductive Menu where
  | mk : String → Option String → Option String → List MOption → Bool → Menu

inductive MOption where
  | mk : String → String → MRes → Bool → Bool → MOption

inductive MRes where
  | rnone : MRes
  | rval : Nat → MRes
  | rmenu : Menu → MRes
  | rerr : String → MRes

end

/-- Menu title. -/
def Menu.title : Menu → String
  | .mk t _ _ _ _ => t

/-- Menu header text. -/
def Menu.header : Menu → Option String
  | .mk _ h _ _ _ => h

/-- Menu footer text. -/
def Menu.footer : Menu → Option String
  | .mk _ _ f _ _ => f

/-- The menu's option list (`self.options`). -/
def Menu.options : Menu → List MOption
  | .mk _ _ _ o _ => o

/-- Truthiness of `self.parent` (the loop only tests the parent reference
for truthiness, never dereferences it). -/
def Menu.hasParent : Menu → Bool
  | .mk _ _ _ _ p => p

/-- Option name. -/
def MOption.name : MOption → String
  | .mk n _ _ _ _ => n

/-- Option description. -/
def MOption.description : MOption → String
  | .mk _ d _ _ _ => d

/-- Outcome of the option's `execute()`. -/
def MOption.result : MOption → MRes
  | .mk _ _ r _ _ => r

/-- Option `enabled` flag. -/
def MOption.enabled : MOption → Bool
  | .mk _ _ _ e _ => e

/-- Option `visible` flag. -/
def MOption.visible : MOption → Bool
  | .mk _ _ _ _ v => v

/-- The synthesized back option added by `_init_default_options`
(menu.py lines 69-74): a visible, enabled option whose action is
`FunctionAction(lambda: None)`. -/
def backOption : MOption :=
  .mk "back" "Return to previous menu" .rnone true true

/-- The synthesized exit option (menu.py lines 76-80); it is stored in
`self.exit_option`, NOT in `self.options`. -/
def exitOption : MOption :=
  .mk "0" "Exit program" .rnone true true

/-- Model of `Menu.__init__` plus `_init_default_options` (menu.py lines 36-80): store
the given options and append the back option when a parent exists. -/
def Menu.make (title : String) (header footer : Option String)
    (options : List MOption) (hasParent : Bool) : Menu :=
  .mk title header footer
    (options ++ (if hasParent then [backOption] else [])) hasParent

/-- Model of `visible_options` (menu.py line 140). -/
def Menu.visibleOptions (m : Menu) : List MOption :=
  m.options.filter (fun o => o.visible)

/-- Rendering of an option, `Option.__str__` as used when listing options (menu.py line 142). -/
def MOption.render (o : MOption) : String :=
  o.name ++ ": " ++ o.description ++ (if o.enabled then "" else " (disabled)")

/-- The numbered option lines of one rendering pass
(menu.py lines 140-142): visible options numbered from 1 in list order. -/
def Menu.numberedLines (m : Menu) : List String :=
  m.visibleOptions.enum.map (fun p => Nat.repr (p.1 + 1) ++ ". " ++ p.2.render)

/-- All lines of one rendering pass, in print order: `_print_header`
(title, underline, optional header), the numbered visible options, then
`_print_footer` (optional footer, exit option line, back hint when a parent
exists) — menu.py lines 136-144, 190-216.  Blank separator lines are not
modelled. -/
def Menu.renderLines (m : Menu) : List String :=
  [m.title, String.mk (List.replicate m.title.length '=')] ++
    (match m.header with | some h => [h] | none => []) ++
    m.numberedLines ++
    (match m.footer with | some f => [f] | none => []) ++
    [exitOption.name ++ ". " ++ exitOption.description] ++
    (if m.hasParent then ["back. Return to previous menu"] else [])

/-- How one raw choice line is resolved by the menu loop
(menu.py lines 147-160). -/
inductive ChoiceRes where
  | exitProg : ChoiceRes
  | goBack : ChoiceRes
  | badToken : ChoiceRes
  | badIndex : ChoiceRes
  | pick : MOption → ChoiceRes

/-- Choice resolution on the already-normalized token (menu.py lines
150-160): `"0"` exits; `"back"` goes back only when a parent exists;
otherwise parse as `int` (failure = `badToken`, the `ValueError` branch),
subtract 1 and index into the visible options (out of range = `badIndex`). -/
def Menu.resolveNorm (m : Menu) (choice : String) : ChoiceRes :=
  if choice = "0" then .exitProg
  else if choice = "back" ∧ m.hasParent = true then .goBack
  else
    match pythonInt choice with
    | none => .badToken
    | some n =>
      let idx := n - 1
      if 0 ≤ idx then
        match m.visibleOptions.get? idx.toNat with
        | some o => .pick o
        | none => .badIndex
      else .badIndex

/-- Choice resolution of a raw input line: normalize with `.strip().lower()`
(menu.py line 147) and resolve. -/
def Menu.resolveChoice (m : Menu) (raw : String) : ChoiceRes :=
  m.resolveNorm (pyLower (pyStrip raw))

/-- Model of `Menu.display` (menu.py lines 121-188).  Stdin is the list of pending
input lines; every `input()` call (the choice prompt and each
"Press Enter to continue..." acknowledgement) consumes one line.  The result
is `some (r, rest)` when the loop returns, where `r` models the Python
return value (`none` = Python `None`, for exit/back; `some v` = a result
value) and `rest` is the unconsumed stdin; `none` models non-termination
within the given `fuel` or exhausting stdin.  A nested menu returned by an
option is run to completion and its result discarded (lines 174-175), after
which an acknowledgement is read and this menu's loop continues. -/
def Menu.display : Nat → Menu → List String → Option (Option Nat × List String)
  | 0, _, _ => none
  | _ + 1, _, [] => none
  | fuel + 1, m, raw :: rest =>
    match m.resolveChoice raw with
    | .exitProg => some (none, rest)
    | .goBack => some (none, rest)
    | .badToken =>
      match rest with
      | [] => none
      | _ :: r2 => Menu.display fuel m r2
    | .badIndex =>
      match rest with
      | [] => none
      | _ :: r2 => Menu.display fuel m r2
    | .pick o =>
      if o.enabled = false then
        match rest with
        | [] => none
        | _ :: r2 => Menu.display fuel m r2
      else
        match o.result with
        | .rerr _ =>
          match rest with
          | [] => none
          | _ :: r2 => Menu.display fuel m r2
        | .rval v => some (some v, rest)
        | .rnone =>
          match rest with
          | [] => none
          | _ :: r2 => Menu.display fuel m r2
        | .rmenu sub =>
          match Menu.display fuel sub rest with
          | none => none
          | some (_, r2) =>
            match r2 with
            | [] => none
            | _ :: r3 => Menu.display fuel m r3

/-! ## input.py -/

/-- Model of `_parse_bool` (input.py lines 318-339). -/
def parseBool (s : String) : Option Bool :=
  let l := pyLower s
  if l ∈ ["true", "t", "yes", "y", "1"] then some true
  else if l ∈ ["false", "f", "no", "n", "0"] then some false
  else none

/-- The value kind of an `Input` (`self._input_type`); `float` is not
modelled (no claim involves it). -/
inductive InType where
  | tstr : InType
  | tint : InType
  | tbool : InType
  | tpath : InType
deriving DecidableEq

/-- Value of `self._path_type` when not `None`: `'file'` or `'dir'`. -/
inductive PathKind where
  | pfile : PathKind
  | pdir : PathKind
deriving DecidableEq

/-- The filesystem visible to `pathlib.Path` queries. -/
structure FS where
  files : List String
  dirs : List String

/-- Model of `Path(p).is_file()`. -/
def FS.isFile (fs : FS) (p : String) : Bool :=
  p ∈ fs.files

/-- Model of `Path(p).is_dir()`. -/
def FS.isDir (fs : FS) (p : String) : Bool :=
  p ∈ fs.dirs

/-- Model of `Path(p).exists()`. -/
def FS.pexists (fs : FS) (p : String) : Bool :=
  fs.isFile p || fs.isDir p

/-- The configuration state of an `Input` (input.py lines 30-46).  Fields
mirror the `_`-prefixed attributes.  A validator is a function from the
coerced value to `(is_valid, error_message)`.  `default_value` is the stored
`_default` with Python `None` as `PyVal.vNone` (the constructor initializes
`_default = None`). -/
structure InputCfg where
  prompt : String
  input_type : InType
  validators : List (PyVal → Bool × String)
  default_value : PyVal
  allow_empty : Bool
  options_list : Option (List PyVal)
  case_sensitive : Bool
  multiple : Bool
  path_type : Option PathKind

/-- The `default` builder method (input.py lines 75-87): store the default
and set `_allow_empty = True`. -/
def Input.default (cfg : InputCfg) (v : PyVal) : InputCfg :=
  { cfg with default_value := v, allow_empty := true }

/-- The `allow_empty` builder method (input.py lines 89-100). -/
def Input.allowEmpty (cfg : InputCfg) (allow : Bool) : InputCfg :=
  { cfg with allow_empty := allow }

/-- The `options` builder method (input.py lines 102-117). -/
def Input.options (cfg : InputCfg) (opts : List PyVal)
    (case_sensitive multiple : Bool) : InputCfg :=
  { cfg with options_list := some opts, case_sensitive := case_sensitive,
             multiple := multiple }

/-- The `path` builder method (input.py lines 61-73): set the type to `Path`
and record the path kind (`none` = any path). -/
def Input.path (cfg : InputCfg) (kind : Option PathKind) : InputCfg :=
  { cfg with input_type := .tpath, path_type := kind }

/-- Truthiness of `self._multiple and self._options` (input.py line 232):
the options list must be set AND non-empty. -/
def InputCfg.optsTruthy (cfg : InputCfg) : Bool :=
  match cfg.options_list with
  | some (_ :: _) => true
  | _ => false

/-- Is a value a Python `str` (`isinstance(value, str)`)? -/
def PyVal.isStr : PyVal → Bool
  | .vStr _ => true
  | _ => false

/-- Value of `value.lower()` for a string value (only used where `isStr` holds). -/
def PyVal.lowerStr : PyVal → String
  | .vStr s => pyLower s
  | _ => ""

/-- The inner option scan of the case-insensitive branch (input.py lines
251-255 and 291-295): the first stored option that is a `str` and whose
lower-casing equals `lowered`, returned in its stored (canonical) casing. -/
def findCanonical (opts : List PyVal) (lowered : String) : Option PyVal :=
  opts.find? (fun o =>
    match o with
    | .vStr t => pyLower t = lowered
    | _ => false)

/-- Per-token coercion inside the multiple-selection branch (input.py lines
237-245): `_parse_bool` for bool, otherwise `self._input_type(selection)`;
`none` models the caught `ValueError`.  Note this branch performs NO
path-existence checks. -/
def coerceMulti (cfg : InputCfg) (sel : String) : Option PyVal :=
  match cfg.input_type with
  | .tbool => (parseBool sel).map PyVal.vBool
  | .tint => (pythonInt sel).map PyVal.vInt
  | .tstr => some (.vStr sel)
  | .tpath => some (.vPath sel)

/-- The token loop of the multiple-selection branch (input.py lines
236-261), with `acc` the `selected_values` accumulator.  `none` models a
`break` (the whole field is retried).  Mirrors the code exactly: in the
case-insensitive string branch a successful match appends the canonical
option; in the other branch membership is checked but nothing is appended. -/
def multiLoop (cfg : InputCfg) (opts : List PyVal) :
    List String → List PyVal → Option (List PyVal)
  | [], acc => some acc
  | sel :: rest, acc =>
    match coerceMulti cfg sel with
    | none => none
    | some value =>
      if cfg.case_sensitive = false ∧ value.isStr = true then
        match findCanonical opts value.lowerStr with
        | some o => multiLoop cfg opts rest (acc ++ [o])
        | none => none
      else if pyMem value opts then multiLoop cfg opts rest acc
      else none

/-- The whole multiple-selection branch for one raw line (input.py lines
232-266): split on commas, strip each token, run the token loop;
`some vals` models the `for`/`else` clause `return selected_values`. -/
def multiSelect (cfg : InputCfg) (raw : String) : Option (List PyVal) :=
  multiLoop cfg (cfg.options_list.getD [])
    ((pySplitComma raw).map pyStrip) []

/-- Single-value coercion (input.py lines 269-285): bool via `_parse_bool`;
`Path` with the kind checks of lines 273-279 — note that when
`self._path_type` is `None` (falsy) every check is skipped, so NO existence
check happens; int via `int()`; str is the identity.  `none` models the
caught `ValueError`. -/
def coerceSingle (cfg : InputCfg) (fs : FS) (raw : String) : Option PyVal :=
  match cfg.input_type with
  | .tbool => (parseBool raw).map PyVal.vBool
  | .tpath =>
    if cfg.path_type = some PathKind.pfile ∧ fs.isFile raw = false then none
    else if cfg.path_type = some PathKind.pdir ∧ fs.isDir raw = false then none
    else if cfg.path_type ≠ none ∧ fs.pexists raw = false then none
    else some (.vPath raw)
  | .tint => (pythonInt raw).map PyVal.vInt
  | .tstr => some (.vStr raw)

/-- The single-value permitted-set check (input.py lines 287-301): skipped
when `_options is None`; case-insensitive string matching substitutes the
canonically-cased stored option; otherwise plain membership.  `none` models
the `continue` (re-prompt). -/
def checkOptions (cfg : InputCfg) (value : PyVal) : Option PyVal :=
  match cfg.options_list with
  | none => some value
  | some l =>
    if cfg.case_sensitive = false ∧ value.isStr = true then
      match findCanonical l value.lowerStr with
      | some o => some o
      | none => none
    else if pyMem value l then some value
    else none

/-- The validator loop (input.py lines 303-309): all validators must accept
the value, in declaration order (the first failure breaks out and the field
is retried). -/
def runValidators : List (PyVal → Bool × String) → PyVal → Bool
  | [], _ => true
  | f :: fs, v => if (f v).1 then runValidators fs v else false

/-- Model of `Input.get_input` (input.py lines 200-316) on a list of pending stdin
lines, one line consumed per loop iteration.  `some v` is the returned
value (`PyVal.vNone` = Python `None`, `PyVal.vList` = a multiple
selection); `none` models exhausting stdin while still re-prompting. -/
def getInput (cfg : InputCfg) (fs : FS) : List String → Option PyVal
  | [] => none
  | line :: rest =>
    let raw := pyStrip line
    if raw = "" then
      if cfg.allow_empty then some cfg.default_value
      else getInput cfg fs rest
    else if cfg.multiple = true ∧ cfg.optsTruthy = true then
      match multiSelect cfg raw with
      | some vals => some (.vList vals)
      | none => getInput cfg fs rest
    else
      match coerceSingle cfg fs raw with
      | none => getInput cfg fs rest
      | some value =>
        match checkOptions cfg value with
        | none => getInput cfg fs rest
        | some value2 =>
          if runValidators cfg.validators value2 then some value2
          else getInput cfg fs rest

/-- Model of `Input.__init__` (input.py lines 30-46): the configuration a fresh
`Input(prompt)` starts with (`_error_msg` is not modelled; no claim uses
it). -/
def Input.new (prompt : String) : InputCfg :=
  ⟨prompt, .tstr, [], .vNone, false, none, true, false, none⟩

/-! ## Concrete fixtures used by counterexamples and witnesses -/

/-- A submenu with no caller-supplied options (only the synthesized back
option). -/
def demoSub : Menu := Menu.make "Submenu" none none [] true

/-- An option whose action returns the nested menu `demoSub`. -/
def demoOpen : MOption := .mk "Open" "Open submenu" (.rmenu demoSub) true true

/-- A parentless top-level menu whose single option opens `demoSub`. -/
def demoTop : Menu := Menu.make "Main" none none [demoOpen] false

/-- A plain enabled, visible option whose action returns `None`. -/
def demoA : MOption := .mk "A" "Do A" .rnone true true

/-- A submenu (it has a parent) with the single caller option `demoA`. -/
def demoParented : Menu := Menu.make "Sub" none none [demoA] true

/-- A module whose `run` entry point raises `ValueError("boom")`. -/
def demoModBoom : PyModule := ⟨[("run", .callable (.error (.valueError "boom")))]⟩

/-- Import environment containing only `demoModBoom` under the path `m`. -/
def demoEnvBoom : Env := [("m", demoModBoom)]

/-- The deferred action `Action("m", "run")`. -/
def demoActRun : Action := ⟨"m", "run"⟩

/-- A module whose `run` entry point raises `AttributeError("boom-attr")`. -/
def demoModAttr : PyModule :=
  ⟨[("run", .callable (.error (.attributeError "boom-attr")))]⟩

/-- Import environment containing only `demoModAttr` under the path `am`. -/
def demoEnvAttr : Env := [("am", demoModAttr)]

/-- The deferred action `Action("am", "run")`. -/
def demoActAttr : Action := ⟨"am", "run"⟩

/-- A module whose `run` entry point raises
`ImportError("No module named 'dep'")`. -/
def demoModImp : PyModule :=
  ⟨[("run", .callable (.error (.importError "No module named 'dep'")))]⟩

/-- Import environment containing only `demoModImp` under the path `im`. -/
def demoEnvImp : Env := [("im", demoModImp)]

/-- The deferred action `Action("im", "run")`. -/
def demoActImp : Action := ⟨"im", "run"⟩

/-- A module with a public non-callable attribute, a public callable and an
internal callable — and no `run` attribute. -/
def demoModMixed : PyModule :=
  ⟨[("config", .plain (.vInt 1)), ("run_all", .callable (.ok .vNone)),
    ("_hidden", .callable (.ok .vNone))]⟩

/-- Import environment containing only `demoModMixed` under the path `mod`. -/
def demoEnvMixed : Env := [("mod", demoModMixed)]

/-- The deferred action `Action("mod", "run")`: its target resolves but the
entry point `run` is absent. -/
def demoActMissing : Action := ⟨"mod", "run"⟩

/-- An empty filesystem. -/
def fsEmpty : FS := ⟨[], []⟩

/-- Configuration `Input("Enter path").path()` — path kind, NO specific kind configured. -/
def cfgAnyPath : InputCfg := Input.path (Input.new "Enter path") none

/-- Configuration `Input("Enter path").path('file')`. -/
def cfgFilePath : InputCfg := Input.path (Input.new "Enter path") (some .pfile)

/-- Configuration `Input("Enter path").path('dir')`. -/
def cfgDirPath : InputCfg := Input.path (Input.new "Enter path") (some .pdir)

/-- Configuration `Input("").options(["A","B","C"], case_sensitive=True, multiple=True)`. -/
def cfgMultiCS : InputCfg :=
  Input.options (Input.new "") [.vStr "A", .vStr "B", .vStr "C"] true true

/-- Configuration `Input("").options(["A","B","C"], case_sensitive=False, multiple=True)`. -/
def cfgMultiCI : InputCfg :=
  Input.options (Input.new "") [.vStr "A", .vStr "B", .vStr "C"] false true

/-- An integer field whose single validator rejects every value — if any
validator ran on the returned value, `getInput` could never return. -/
def demoStrictIntCfg : InputCfg :=
  { Input.new "Enter timeout" with
    input_type := .tint, validators := [fun _ => (false, "always rejected")] }

/-! ## Helper lemmas -/

/-- Membership is preserved by sorted insertion. -/
theorem mem_insertSorted {a s : String} {l : List String} :
    a ∈ insertSorted s l ↔ a = s ∨ a ∈ l := by
  induction l with
  | nil => simp [insertSorted]
  | cons t ts ih =>
    by_cases h : strLe s t = true
    · simp [insertSorted, h]
    · simp [insertSorted, h, ih]
      tauto

/-- The sort `sortNames` (the model of `dir()` ordering) preserves membership. -/
theorem mem_sortNames {a : String} {l : List String} :
    a ∈ sortNames l ↔ a ∈ l := by
  induction l with
  | nil => simp [sortNames]
  | cons t ts ih =>
    simp only [sortNames, List.foldr] at ih ⊢
    rw [mem_insertSorted, ih, List.mem_cons]

/-! ## Claims -/

/-- Claim C2 (counterexample): the exception raised by the invoked target is
NOT wrapped as an ExecutionError: both `Action.execute` and
`FunctionAction.execute` re-raise the original `ValueError("boom")`
unchanged. -/
theorem c2_wrap_counterexample :
    (Action.execute demoEnvBoom demoActRun).2 = .error (.valueError "boom") ∧
    raisedExecutionError (Action.execute demoEnvBoom demoActRun).2 = false ∧
    (FunctionAction.execute "boom_fn" (.error (.valueError "boom"))).2 =
      .error (.valueError "boom") ∧
    raisedExecutionError
      (FunctionAction.execute "boom_fn" (.error (.valueError "boom"))).2 = false :=
  ⟨rfl, rfl, rfl, rfl⟩

/-- Claim C2 (amended): for both Action variants, an exception raised by the
invoked target is re-raised UNCHANGED (never swallowed, but also not wrapped
in any ExecutionError), after exactly one diagnostic line is written to the
error stream; the form of that line is dispatched on the exception's type by
the `except` handlers of action.py lines 80-88.  Part 1: for every
target-raised exception that is neither an `ImportError` nor an
`AttributeError`, the line carries the target/entry-point identity and the
original message.  Part 2: a target-raised `AttributeError` gets only
`str(e)` — no target/entry identity.  Part 3: a target-raised `ImportError`
gets the importing line, which names the target but not the entry point.
Part 4: `FunctionAction` always writes the line naming the function. -/
theorem c2_amended :
    (∀ (env : Env) (a : Action) (m : PyModule) (e : Exc),
      env.find a.script_path = some m →
      m.getattr a.entry_function = some (.callable (.error e)) →
      (∀ s, e ≠ .importError s) → (∀ s, e ≠ .attributeError s) →
      Action.execute env a = ([a.execDiag e], .error e)) ∧
    (∀ (env : Env) (a : Action) (m : PyModule) (s : String),
      env.find a.script_path = some m →
      m.getattr a.entry_function = some (.callable (.error (.attributeError s))) →
      Action.execute env a = ([s], .error (.attributeError s))) ∧
    (∀ (env : Env) (a : Action) (m : PyModule) (s : String),
      env.find a.script_path = some m →
      m.getattr a.entry_function = some (.callable (.error (.importError s))) →
      Action.execute env a =
        (["Error importing '" ++ a.script_path ++ "': " ++ s],
         .error (.importError s))) ∧
    (∀ (n : String) (e : Exc),
      FunctionAction.execute n (.error e) =
        (["Error executing function " ++ n ++ ": " ++ e.msg], .error e)) := by
  refine ⟨?_, ?_, ?_, fun n e => rfl⟩
  · intro env a m e h1 h2 hni hna
    have hd : a.errDiag e = a.execDiag e := by
      cases e with
      | importError s => exact absurd rfl (hni s)
      | attributeError s => exact absurd rfl (hna s)
      | valueError s => rfl
      | typeError s => rfl
      | runtimeError s => rfl
      | executionError s o => rfl
    simp [Action.execute, h1, h2, hd]
  · intro env a m s h1 h2
    simp [Action.execute, Action.errDiag, h1, h2]
  · intro env a m s h1 h2
    simp [Action.execute, Action.errDiag, Exc.msg, h1, h2]

/-- Witness for C2 (amended) at concrete environments, one per branch of the
type dispatch: a target raising `ValueError` gets the executing line; a
target raising `AttributeError` gets only its message; a target raising
`ImportError` gets the importing line; and a direct callable raising
`ValueError` gets the function line.  In every case the original exception
comes back unchanged. -/
theorem c2_amended_witness :
    Env.find demoEnvBoom "m" = some demoModBoom ∧
    Action.execute demoEnvBoom demoActRun =
      (["Error executing m.run(): boom"], .error (.valueError "boom")) ∧
    Action.execute demoEnvAttr demoActAttr =
      (["boom-attr"], .error (.attributeError "boom-attr")) ∧
    Action.execute demoEnvImp demoActImp =
      (["Error importing 'im': No module named 'dep'"],
       .error (.importError "No module named 'dep'")) ∧
    FunctionAction.execute "boom_fn" (.error (.valueError "boom")) =
      (["Error executing function boom_fn: boom"], .error (.valueError "boom")) :=
  ⟨rfl,
   c2_amended.1 demoEnvBoom demoActRun demoModBoom (.valueError "boom") rfl rfl
     (fun _ h => Exc.noConfusion h) (fun _ h => Exc.noConfusion h),
   c2_amended.2.1 demoEnvAttr demoActAttr demoModAttr "boom-attr" rfl rfl,
   c2_amended.2.2.1 demoEnvImp demoActImp demoModImp "No module named 'dep'" rfl rfl,
   c2_amended.2.2.2 "boom_fn" (.valueError "boom")⟩

/-- Claim C4: when the target module resolves but the entry-point name is
absent, `execute()` fails with the attribute error (the spec's
"ContractError") whose message enumerates the public attribute names, and
that enumeration contains every public callable attribute of the target. -/
theorem c4_missing_entry_enumerates_public_callables :
    ∀ (env : Env) (a : Action) (m : PyModule),
      env.find a.script_path = some m →
      m.getattr a.entry_function = none →
      Action.execute env a =
        ([a.missingMsg m], .error (.attributeError (a.missingMsg m))) ∧
      a.missingMsg m =
        "Module '" ++ a.script_path ++ "' has no '" ++ a.entry_function ++
          "' function. Available functions: " ++
          String.intercalate ", " (dirPublic m) ∧
      ∀ (name : String) (mem : Member), (name, mem) ∈ m.attrs →
        startsUnderscore name = false → mem.isCallable = true →
        name ∈ dirPublic m := by
  intro env a m h1 h2
  refine ⟨by simp [Action.execute, Action.errDiag, h1, h2], rfl, ?_⟩
  intro name mem hmem hpub _
  simp only [dirPublic, List.mem_filter, mem_sortNames, List.mem_map]
  exact ⟨⟨(name, mem), hmem, rfl⟩, by simp [hpub]⟩

/-- Witness for C4 at a concrete module: `run` is absent from
`demoModMixed`, the failure message lists `config, run_all` (in `dir()`
order, internal `_hidden` filtered out), and the public callable `run_all`
is in the enumerated list. -/
theorem c4_witness :
    Action.execute demoEnvMixed demoActMissing =
      (["Module 'mod' has no 'run' function. Available functions: config, run_all"],
       .error (.attributeError
         "Module 'mod' has no 'run' function. Available functions: config, run_all")) ∧
    "run_all" ∈ dirPublic demoModMixed := by
  have h := c4_missing_entry_enumerates_public_callables demoEnvMixed
    demoActMissing demoModMixed rfl rfl
  refine ⟨?_, h.2.2 "run_all" (.callable (.ok .vNone)) (by simp [demoModMixed]) rfl rfl⟩
  have h1 := h.1
  rw [show demoActMissing.missingMsg demoModMixed =
    "Module 'mod' has no 'run' function. Available functions: config, run_all"
    by decide] at h1
  exact h1

/-- Claim C7: executing a disabled Option always fails with a RuntimeError
naming the option, whatever the action and the `visible` flag (so the
wrapped action is never invoked — the result does not depend on it); an
enabled Option delegates to the action, again independently of `visible`. -/
theorem c7_disabled_option_never_runs_action :
    (∀ (n d : String) (act : Unit → Except Exc PyVal) (vis : Bool),
      OptionItem.execute ⟨n, d, act, false, vis⟩ =
        .error (.runtimeError ("Cannot execute disabled option: " ++ n))) ∧
    (∀ (n d : String) (act : Unit → Except Exc PyVal) (vis : Bool),
      OptionItem.execute ⟨n, d, act, true, vis⟩ = act ()) :=
  ⟨fun _ _ _ _ => rfl, fun _ _ _ _ => rfl⟩

/-- Claim C1 (counterexample): entering "0" in a nested menu does NOT end
the ancestor's loop.  `demoTop`'s option 1 opens `demoSub`; after inputs
"1" then "0" the nested menu exits, but the parent loop keeps running: with
no further stdin it is stuck awaiting more input (first conjunct, `none`),
and given two more lines (the acknowledgement and a fresh choice "0") the
parent consumes BOTH in a further loop iteration (second conjunct).  If the
claim held, the result on the longer stdin would be `some (none, ["", "0"])`
with those lines left unread — it is not (third conjunct). -/
theorem c1_counterexample :
    Menu.display 10 demoTop ["1", "0"] = none ∧
    Menu.display 10 demoTop ["1", "0", "", "0"] = some (none, []) ∧
    Menu.display 10 demoTop ["1", "0", "", "0"] ≠ some (none, ["", "0"]) := by
  refine ⟨rfl, rfl, ?_⟩
  rw [show Menu.display 10 demoTop ["1", "0", "", "0"] = some (none, []) from rfl]
  simp

/-- Claim C1 (amended): entering "0" terminates the CURRENT menu's loop
immediately (returning `None` and consuming nothing further); but when the
menu was entered as a nested menu, the parent's loop resumes after an
acknowledgement (nested results are discarded, menu.py lines 174-179), so
ancestor loops keep running — only the top-level driver stops on the
`None`. -/
theorem c1_amended :
    (∀ (fuel : Nat) (m : Menu) (rest : List String),
      Menu.display (fuel + 1) m ("0" :: rest) = some (none, rest)) ∧
    Menu.display 10 demoTop ["1", "0", "", "0"] = some (none, []) :=
  ⟨fun _ _ _ => rfl, rfl⟩

/-- Claim C3 (counterexample): in a submenu, the synthesized back Option is
part of the option list, so it is rendered NUMBERED (here "2."), BEFORE the
exit line, and it is selectable by that number — contradicting "rendered
after exit and selectable only by the literal token back, not by a
number". -/
theorem c3_counterexample :
    Menu.renderLines demoParented =
      ["Sub", "===", "1. A: Do A", "2. back: Return to previous menu",
       "0. Exit program", "back. Return to previous menu"] ∧
    demoParented.resolveChoice "2" = .pick backOption :=
  ⟨rfl, rfl⟩

/-- Claim C3 (amended): each rendering pass numbers the currently visible
Options 1..N in list order, where — when a parent exists — the synthesized
back Option is appended to the option list itself and therefore gets a
number and is selectable by it; the synthesized exit Option is rendered
after all numbered lines with fixed key "0", followed by the "back" hint
line when a parent exists.  Part 3: any token whose normalized form parses
as the integer k+1 selects the (k+1)-th visible option — including the
numbered back option. -/
theorem c3_amended :
    (∀ (t : String) (hdr ftr : Option String) (opts : List MOption),
      (Menu.make t hdr ftr opts true).options = opts ++ [backOption]) ∧
    (∀ m : Menu, ∃ pre : List String,
      Menu.renderLines m =
        pre ++ ([exitOption.name ++ ". " ++ exitOption.description] ++
          (if m.hasParent then ["back. Return to previous menu"] else []))) ∧
    (∀ (m : Menu) (s : String) (k : Nat) (o : MOption),
      pythonInt (pyLower (pyStrip s)) = some ((k : Int) + 1) →
      m.visibleOptions.get? k = some o →
      m.resolveChoice s = .pick o) := by
  refine ⟨fun _ _ _ _ => rfl, ?_, ?_⟩
  · intro m
    refine ⟨[m.title, String.mk (List.replicate m.title.length '=')] ++
      (match m.header with | some h => [h] | none => []) ++
      m.numberedLines ++
      (match m.footer with | some f => [f] | none => []), ?_⟩
    simp [Menu.renderLines, List.append_assoc]
  · intro m s k o hparse hget
    have hk0 : pyLower (pyStrip s) ≠ "0" := by
      intro h
      rw [h, show pythonInt "0" = some 0 from rfl] at hparse
      simp at hparse
      omega
    have hkb : ¬(pyLower (pyStrip s) = "back" ∧ m.hasParent = true) := by
      intro h
      rw [h.1, show pythonInt "back" = none from rfl] at hparse
      simp at hparse
    have h1 : ((k : Int) + 1 - 1) = (k : Int) := by ring
    unfold Menu.resolveChoice
    simp only [Menu.resolveNorm, hk0, hkb, hparse, if_false, h1,
      Int.natCast_nonneg, if_true, Int.toNat_natCast, hget]

/-- Witness for C3 (amended), part 3 at a concrete input: on the submenu
`demoParented` the token "1" (which parses as 0+1) selects its first
visible option `demoA`. -/
theorem c3_amended_witness :
    pythonInt (pyLower (pyStrip "1")) = some ((0 : Int) + 1) ∧
    demoParented.resolveChoice "1" = .pick demoA :=
  ⟨rfl, c3_amended.2.2 demoParented "1" 0 demoA rfl rfl⟩

/-- Claim C8: on a menu with a parent, "back" terminates the loop and
returns `None` immediately; on a parentless menu the token is not special —
it falls through to integer parsing (`badToken`, the invalid-choice
handling) and the loop keeps running on the remaining input. -/
theorem c8_back_token :
    (∀ (fuel : Nat) (m : Menu) (rest : List String), m.hasParent = true →
      Menu.display (fuel + 1) m ("back" :: rest) = some (none, rest)) ∧
    (∀ m : Menu, m.hasParent = false → m.resolveChoice "back" = .badToken) ∧
    (∀ (fuel : Nat) (m : Menu) (e : String) (rest : List String),
      m.hasParent = false →
      Menu.display (fuel + 1) m ("back" :: e :: rest) = Menu.display fuel m rest) := by
  have hnorm : ∀ m : Menu, m.resolveChoice "back" = m.resolveNorm "back" :=
    fun _ => rfl
  have hres : ∀ m : Menu, m.hasParent = true → m.resolveChoice "back" = .goBack := by
    intro m h
    rw [hnorm]
    simp [Menu.resolveNorm, h]
  have hbad : ∀ m : Menu, m.hasParent = false → m.resolveChoice "back" = .badToken := by
    intro m h
    rw [hnorm]
    simp [Menu.resolveNorm, h, show pythonInt "back" = none from rfl]
  refine ⟨?_, hbad, ?_⟩
  · intro fuel m rest h
    simp [Menu.display, hres m h]
  · intro fuel m e rest h
    simp [Menu.display, hbad m h]

/-- Witness for C8 at concrete menus: `demoParented` has a parent and
returns on "back" leaving the rest of stdin unread; `demoTop` is parentless,
resolves "back" as a bad token and loops on. -/
theorem c8_witness :
    Menu.display 3 demoParented ["back", "x"] = some (none, ["x"]) ∧
    demoTop.resolveChoice "back" = .badToken ∧
    Menu.display 3 demoTop ["back", "", "0"] = Menu.display 2 demoTop ["0"] :=
  ⟨c8_back_token.1 2 demoParented ["x"] rfl,
   c8_back_token.2.1 demoTop rfl,
   c8_back_token.2.2 2 demoTop "" ["0"] rfl⟩

/-- Claim C5 (counterexample): with path kind and NO specific path kind
configured (`Input.path(None)`, as built by `cfgAnyPath`), a coerced path
that does not exist on the (empty) filesystem is returned silently — no
validation error, no re-prompt. -/
theorem c5_counterexample :
    getInput cfgAnyPath fsEmpty ["ghost"] = some (.vPath "ghost") ∧
    fsEmpty.pexists "ghost" = false :=
  ⟨rfl, rfl⟩

/-- Claim C5 (amended): when a SPECIFIC path kind is configured, a coerced
single value that is not an existing file (resp. directory) of that kind is
a validation error causing a re-prompt (parts 1-2); but when no specific
kind is set, NO existence check is performed and a nonexistent path passes
and is returned (part 3). -/
theorem c5_amended :
    (∀ (cfg : InputCfg) (fs : FS) (raw : String) (rest : List String),
      cfg.multiple = false → cfg.input_type = .tpath →
      cfg.path_type = some .pfile → fs.isFile (pyStrip raw) = false →
      pyStrip raw ≠ "" →
      getInput cfg fs (raw :: rest) = getInput cfg fs rest) ∧
    (∀ (cfg : InputCfg) (fs : FS) (raw : String) (rest : List String),
      cfg.multiple = false → cfg.input_type = .tpath →
      cfg.path_type = some .pdir → fs.isDir (pyStrip raw) = false →
      pyStrip raw ≠ "" →
      getInput cfg fs (raw :: rest) = getInput cfg fs rest) ∧
    (∀ (cfg : InputCfg) (fs : FS) (raw : String) (rest : List String),
      cfg.multiple = false → cfg.input_type = .tpath → cfg.path_type = none →
      cfg.options_list = none → cfg.validators = [] → pyStrip raw ≠ "" →
      getInput cfg fs (raw :: rest) = some (.vPath (pyStrip raw))) := by
  refine ⟨?_, ?_, ?_⟩
  · intro cfg fs raw rest hm ht hp hf hne
    simp [getInput, hne, hm, coerceSingle, ht, hp, hf]
  · intro cfg fs raw rest hm ht hp hd hne
    simp [getInput, hne, hm, coerceSingle, ht, hp, hd]
  · intro cfg fs raw rest hm ht hp hopts hv hne
    simp [getInput, hne, hm, coerceSingle, ht, hp, checkOptions, hopts,
      runValidators, hv]

/-- Witness for C5 (amended) at concrete configurations: a nonexistent path
is re-prompted under kind 'file' and kind 'dir', and returned under no
kind. -/
theorem c5_witness :
    fsEmpty.isFile "ghost" = false ∧
    getInput cfgFilePath fsEmpty ["ghost"] = getInput cfgFilePath fsEmpty [] ∧
    getInput cfgDirPath fsEmpty ["ghost"] = getInput cfgDirPath fsEmpty [] ∧
    getInput cfgAnyPath fsEmpty ["ghost"] = some (.vPath "ghost") :=
  ⟨rfl,
   c5_amended.1 cfgFilePath fsEmpty "ghost" [] rfl rfl rfl rfl (by decide),
   c5_amended.2.1 cfgDirPath fsEmpty "ghost" [] rfl rfl rfl rfl (by decide),
   c5_amended.2.2 cfgAnyPath fsEmpty "ghost" [] rfl rfl rfl rfl rfl (by decide)⟩

/-- Claim C6 (code bug, evaluated): with multiple-selection on the permitted
set {"A","B","C"}: under case-SENSITIVE matching the valid input "A,B"
returns the EMPTY list — the membership branch never appends the matched
token (input.py line 259-261) — although the function's own comment says
"All selections were valid" and its docstring promises the list of selected
options.  Under the (default) case-insensitive matching the same input
returns ["A","B"] in input order, and a failing token aborts the whole
selection atomically ("A,Z" then "B" re-prompts and returns ["B"]). -/
theorem c6_case_sensitive_eval :
    getInput cfgMultiCS fsEmpty ["A,B"] = some (.vList []) ∧
    getInput cfgMultiCI fsEmpty ["A,B"] =
      some (.vList [.vStr "A", .vStr "B"]) ∧
    getInput cfgMultiCI fsEmpty ["A,Z", "B"] = some (.vList [.vStr "B"]) :=
  ⟨rfl, rfl, rfl⟩

/-- Claim C9: `default(v)` sets allow-empty to true, and thereafter an empty
raw input line makes `get_input` return exactly `v` — for EVERY
configuration, in particular whatever the validators and the value kind:
neither coercion nor any validator can affect (or block) the returned
default. -/
theorem c9_default_empty_returns_default :
    (∀ (cfg : InputCfg) (v : PyVal), (Input.default cfg v).allow_empty = true) ∧
    (∀ (cfg : InputCfg) (v : PyVal) (fs : FS) (line : String) (rest : List String),
      pyStrip line = "" →
      getInput (Input.default cfg v) fs (line :: rest) = some v) := by
  refine ⟨fun _ _ => rfl, ?_⟩
  intro cfg v fs line rest h
  simp [getInput, h, Input.default]

/-- Witness for C9 at a concrete field: default 30 on an integer field whose
only validator rejects everything — the empty input still returns exactly
30, so no validator ran on it. -/
theorem c9_witness :
    pyStrip "" = "" ∧
    getInput (Input.default demoStrictIntCfg (.vInt 30)) fsEmpty [""] =
      some (.vInt 30) :=
  ⟨rfl, c9_default_empty_returns_default.2 demoStrictIntCfg (.vInt 30) fsEmpty "" [] rfl⟩

/-- Claim C10: when allow-empty is enabled but no default was ever
configured (`_default` still holds Python `None`), an empty raw input makes
`get_input` return `None` — for every configuration, so no coercion and no
validator touches the result. -/
theorem c10_allow_empty_no_default_returns_none :
    ∀ (cfg : InputCfg) (fs : FS) (line : String) (rest : List String),
      cfg.allow_empty = true → cfg.default_value = .vNone →
      pyStrip line = "" →
      getInput cfg fs (line :: rest) = some .vNone := by
  intro cfg fs line rest ha hd h
  simp [getInput, h, ha, hd]

/-- Witness for C10 at a concrete field: allow-empty on an integer field
with an always-failing validator and no default; a whitespace-only line
returns `None`. -/
theorem c10_witness :
    (Input.allowEmpty demoStrictIntCfg true).allow_empty = true ∧
    getInput (Input.allowEmpty demoStrictIntCfg true) fsEmpty ["  "] =
      some .vNone :=
  ⟨rfl,
   c10_allow_empty_no_default_returns_none (Input.allowEmpty demoStrictIntCfg true)
     fsEmpty "  " [] rfl rfl rfl⟩

end WasteVision
